import Mathlib

/-!
Shallow embedding of the ShadowTrade MXE Anchor program (src/mxe-program.rs).

The program state is a chain state holding the singleton `MXE` registry
record (at the PDA derived from the seed "shadow-trade-mxe"), per-owner
`Strategy` records (at PDAs derived from the seed "strategy" plus the
owner's public key), and the append-only event log.  Each instruction
handler is embedded as a function from its arguments and the pre-state to
`Except ProgramError` of its result: Anchor account-constraint resolution
(`init`, `init_if_needed`, `seeds`, `bump`) is made explicit at the head of
each handler, following Anchor's documented semantics, and the handler body
follows the Rust source line by line.  PDA derivation is modelled as the
injective constructors of `Address`; machine integers are modelled as
`Nat` / `Int` (no handler performs arithmetic on them, so no overflow
reduction is needed).
-/

namespace ShadowTrade

/-- A Solana public key, abstracted to a natural number; the all-zero
default key is `0`. -/
abbrev Pubkey := Nat

/-- Opaque encrypted payload (`EncryptedData` in the source): a byte
sequence the program never inspects. -/
abbrev EncryptedData := List Nat

/-- Deterministically derived account addresses.  `mxePda` is the PDA for
seeds `[b"shadow-trade-mxe"]`; `strategyPda owner` is the PDA for seeds
`[b"strategy", owner]`.  Constructor injectivity models collision-free
derivation. -/
inductive Address
  | mxePda : Address
  | strategyPda : Pubkey → Address
deriving DecidableEq, Repr

/-- The `MXE` registry account (source lines 170-178). -/
structure MXE where
  authority : Pubkey
  bump : Nat
  total_computations : Nat
  successful_computations : Nat
  created_at : Int
deriving DecidableEq, Repr

/-- The per-owner `Strategy` account (source lines 180-190). -/
structure Strategy where
  owner : Pubkey
  bump : Nat
  total_return : Int
  win_rate : Nat
  total_trades : Nat
  win_trades : Nat
  last_updated : Int
deriving DecidableEq, Repr

/-- A freshly allocated account is zero-initialized by the runtime before
the handler runs. -/
def MXE.zeroed : MXE :=
  { authority := 0, bump := 0, total_computations := 0
    successful_computations := 0, created_at := 0 }

/-- A freshly allocated `Strategy` account is zero-initialized. -/
def Strategy.zeroed : Strategy :=
  { owner := 0, bump := 0, total_return := 0, win_rate := 0
    total_trades := 0, win_trades := 0, last_updated := 0 }

/-- The event types declared in the source (lines 192-223).  Note that the
source declares them but no handler ever emits one. -/
inductive Event
  | rsiComputationRequested (authority : Pubkey)
      (rsi_period rsi_oversold rsi_overbought : Nat) (timestamp : Int)
  | positionSizeComputationRequested (authority : Pubkey)
      (risk_percentage : Nat) (current_price : Nat) (timestamp : Int)
  | performanceComputationRequested (authority : Pubkey) (timestamp : Int)
  | strategyPerformanceUpdated (strategy : Pubkey) (total_return : Int)
      (win_rate total_trades win_trades : Nat) (timestamp : Int)
deriving DecidableEq, Repr

/-- The program's custom error codes (source lines 225-237). -/
inductive ErrorCode
  | Unauthorized
  | InvalidRSIParameters
  | InvalidRiskPercentage
  | ComputationFailed
  | StrategyNotFound
deriving DecidableEq, Repr

/-- Errors an instruction can fail with: the program's custom codes plus
the Anchor framework errors raised by the account constraints used in this
program (`init` on an existing account, `Account` deserialization of a
missing account, and a `seeds` constraint mismatch). -/
inductive ProgramError
  | custom (e : ErrorCode)
  | accountAlreadyInitialized
  | accountNotInitialized
  | constraintSeeds
deriving DecidableEq, Repr

/-- Global chain state: the optional registry record, the strategy records
keyed by owner (most recent binding first), and the emitted event log. -/
structure ChainState where
  mxe : Option MXE
  strategies : List (Pubkey × Strategy)
  events : List Event
deriving DecidableEq, Repr

/-- `initialize` (source lines 11-18).  The `Initialize` accounts struct
(lines 100-115) declares the `mxe` account with `init`, so account
resolution fails if the registry PDA is already occupied; otherwise the
account is created zero-initialized and the handler stores the authority
and the canonical bump. -/
def initializeMxe (caller : Pubkey) (canonicalBump : Nat) (s : ChainState) :
    Except ProgramError ChainState :=
  match s.mxe with
  | some _ => .error .accountAlreadyInitialized
  | none =>
      let mxe := { MXE.zeroed with authority := caller, bump := canonicalBump }
      .ok { s with mxe := some mxe }

/-- `evaluate_rsi_strategy` (source lines 21-41).  The `EvaluateRSI`
accounts struct (lines 117-127) requires the existing `mxe` account at its
PDA; the handler body only logs the scalar parameters and returns
`encrypted_prices` unchanged, mutating nothing. -/
def evaluate_rsi_strategy (caller : Pubkey) (encrypted_prices : EncryptedData)
    (rsi_period rsi_oversold rsi_overbought : Nat) (s : ChainState) :
    Except ProgramError (EncryptedData × ChainState) :=
  match s.mxe with
  | none => .error .accountNotInitialized
  | some _ => .ok (encrypted_prices, s)

/-- `calculate_position_size` (source lines 44-59).  Same account shape as
RSI; the handler body logs the scalars and returns `encrypted_balance`
unchanged.  No validation of `risk_percentage` or `current_price` occurs. -/
def calculate_position_size (caller : Pubkey) (encrypted_balance : EncryptedData)
    (risk_percentage : Nat) (current_price : Nat) (s : ChainState) :
    Except ProgramError (EncryptedData × ChainState) :=
  match s.mxe with
  | none => .error .accountNotInitialized
  | some _ => .ok (encrypted_balance, s)

/-- `calculate_performance_metrics` (source lines 62-75).  Takes two
opaque blobs and returns the first (`encrypted_trades`) unchanged. -/
def calculate_performance_metrics (caller : Pubkey)
    (encrypted_trades encrypted_initial_balance : EncryptedData)
    (s : ChainState) : Except ProgramError (EncryptedData × ChainState) :=
  match s.mxe with
  | none => .error .accountNotInitialized
  | some _ => .ok (encrypted_trades, s)

/-- `update_strategy_performance` (source lines 78-97).  The
`UpdatePerformance` accounts struct (lines 153-168) constrains the passed
`strategy` account to the PDA derived from `[b"strategy", authority.key()]`
with `init_if_needed`: a caller supplying an account at any other address
fails the seeds constraint before the handler body runs; an absent record
at the caller's own PDA is created zero-initialized.  The body overwrites
the four performance fields and `last_updated` (the clock value is the
`now` parameter) and touches no other field. -/
def update_strategy_performance (caller : Pubkey) (strategyAddr : Address)
    (total_return : Int) (win_rate total_trades win_trades : Nat)
    (now : Int) (s : ChainState) : Except ProgramError ChainState :=
  if strategyAddr ≠ Address.strategyPda caller then
    .error .constraintSeeds
  else
    let prev := (s.strategies.lookup caller).getD Strategy.zeroed
    let strategy :=
      { prev with
        total_return := total_return
        win_rate := win_rate
        total_trades := total_trades
        win_trades := win_trades
        last_updated := now }
    .ok { s with strategies := (caller, strategy) :: s.strategies }

/-- One client-visible operation against the program, with its caller and
(where the client chooses an account) the targeted account address. -/
inductive Op
  | initializeMxe (caller : Pubkey) (canonicalBump : Nat)
  | evaluateRsi (caller : Pubkey) (encrypted_prices : EncryptedData)
      (rsi_period rsi_oversold rsi_overbought : Nat)
  | calculatePosition (caller : Pubkey) (encrypted_balance : EncryptedData)
      (risk_percentage current_price : Nat)
  | calculatePerformance (caller : Pubkey)
      (encrypted_trades encrypted_initial_balance : EncryptedData)
  | updatePerformance (caller : Pubkey) (strategyAddr : Address)
      (total_return : Int) (win_rate total_trades win_trades : Nat) (now : Int)

/-- Transactions are atomic: a failed instruction leaves the chain state
untouched. -/
def applyExcept (r : Except ProgramError ChainState) (s : ChainState) :
    ChainState :=
  match r with
  | .ok s' => s'
  | .error _ => s

/-- Apply one operation to the chain state (atomic commit-or-abort). -/
def step (op : Op) (s : ChainState) : ChainState :=
  match op with
  | .initializeMxe c b => applyExcept (initializeMxe c b s) s
  | .evaluateRsi c e p o ob =>
      applyExcept ((evaluate_rsi_strategy c e p o ob s).map Prod.snd) s
  | .calculatePosition c e r pr =>
      applyExcept ((calculate_position_size c e r pr s).map Prod.snd) s
  | .calculatePerformance c e1 e2 =>
      applyExcept ((calculate_performance_metrics c e1 e2 s).map Prod.snd) s
  | .updatePerformance c a tr wr tt wt now =>
      applyExcept (update_strategy_performance c a tr wr tt wt now s) s

/-- Apply a sequence of operations in order. -/
def run (ops : List Op) (s : ChainState) : ChainState :=
  ops.foldl (fun t op => step op t) s

/-- Boolean success test for an instruction result. -/
def exceptOk {α : Type} (r : Except ProgramError α) : Bool :=
  match r with
  | .ok _ => true
  | .error _ => false

/-- Erase the `last_updated` timestamp of a strategy record, for statements
that compare records up to the settlement timestamp. -/
def Strategy.eraseTimestamp (r : Strategy) : Strategy :=
  { r with last_updated := 0 }

/-- A chain state whose registry has been created, used as a concrete
starting point for closed statements. -/
def mxeReadyState : ChainState :=
  ⟨some { MXE.zeroed with authority := 1, bump := 255 }, [], []⟩

/-- Claim C1: a settlement call signed by `B` that targets `A`'s strategy
record (`A ≠ B`) fails — the seeds constraint on the `strategy` account is
the program's authorization gate, so the mismatch is the authorization
error — and leaves the whole chain state, in particular `A`'s record,
unchanged; a settlement signed by the owner itself succeeds. -/
theorem settle_authorization_enforced
    (A B : Pubkey) (tr : Int) (wr tt wt : Nat) (now : Int) (s : ChainState)
    (hAB : A ≠ B) :
    update_strategy_performance B (Address.strategyPda A) tr wr tt wt now s
        = .error .constraintSeeds
    ∧ step (.updatePerformance B (Address.strategyPda A) tr wr tt wt now) s = s
    ∧ exceptOk (update_strategy_performance A (Address.strategyPda A)
        tr wr tt wt now s) = true := by
  have hne : Address.strategyPda A ≠ Address.strategyPda B := by
    intro h
    exact hAB (Address.strategyPda.inj h)
  refine ⟨?_, ?_, ?_⟩
  · simp [update_strategy_performance, hne]
  · simp [step, applyExcept, update_strategy_performance, hne]
  · simp [update_strategy_performance, exceptOk]

/-- Witness for C1 at `A = 1`, `B = 2`. -/
theorem settle_authorization_enforced_witness :
    (1 : Pubkey) ≠ 2
    ∧ (update_strategy_performance 2 (Address.strategyPda 1) 250 6000 10 6 77
          ⟨none, [], []⟩ = .error .constraintSeeds
       ∧ step (.updatePerformance 2 (Address.strategyPda 1) 250 6000 10 6 77)
            ⟨none, [], []⟩ = ⟨none, [], []⟩
       ∧ exceptOk (update_strategy_performance 1 (Address.strategyPda 1)
            250 6000 10 6 77 ⟨none, [], []⟩) = true) :=
  ⟨by decide,
   settle_authorization_enforced 1 2 250 6000 10 6 77 ⟨none, [], []⟩ (by decide)⟩

/-- Claim C2: an authorized settlement overwrites all four numeric fields
with exactly the call's arguments and sets `last_updated` to the current
time, creating the record if absent; two sequential settlements by the same
owner leave the record with the second call's values (last-writer-wins). -/
theorem settle_overwrites_all_fields
    (c : Pubkey) (tr : Int) (wr tt wt : Nat) (now : Int)
    (tr2 : Int) (wr2 tt2 wt2 : Nat) (now2 : Int) (s : ChainState) :
    exceptOk (update_strategy_performance c (Address.strategyPda c)
        tr wr tt wt now s) = true
    ∧ ((step (.updatePerformance c (Address.strategyPda c) tr wr tt wt now)
          s).strategies.lookup c).map
        (fun r => (r.total_return, r.win_rate, r.total_trades, r.win_trades,
          r.last_updated)) = some (tr, wr, tt, wt, now)
    ∧ ((step (.updatePerformance c (Address.strategyPda c) tr2 wr2 tt2 wt2 now2)
          (step (.updatePerformance c (Address.strategyPda c) tr wr tt wt now)
            s)).strategies.lookup c).map
        (fun r => (r.total_return, r.win_rate, r.total_trades, r.win_trades,
          r.last_updated)) = some (tr2, wr2, tt2, wt2, now2) := by
  refine ⟨?_, ?_, ?_⟩ <;>
    simp [step, applyExcept, update_strategy_performance, exceptOk, List.lookup]

/-- Counterexample to claim C3 as stated: a settlement with
`win_rate = 10001 > 10000` does not fail with `InvalidWinRate`; it succeeds
and the record ends with `win_rate = 10001`. -/
theorem settle_win_rate_not_validated :
    exceptOk (update_strategy_performance 7 (Address.strategyPda 7)
        0 10001 0 0 0 ⟨none, [], []⟩) = true
    ∧ ((step (.updatePerformance 7 (Address.strategyPda 7) 0 10001 0 0 0)
          ⟨none, [], []⟩).strategies.lookup 7).map Strategy.win_rate
        = some 10001 := by
  decide

/-- Claim C3 as amended: `update_strategy_performance` performs no
validation of `win_rate` at all — every correctly targeted call succeeds,
for `win_rate ≤ 10000` and `win_rate > 10000` alike, and writes the given
value verbatim (no `InvalidWinRate` error exists in the program). -/
theorem settle_accepts_any_win_rate
    (c : Pubkey) (tr : Int) (wr tt wt : Nat) (now : Int) (s : ChainState) :
    exceptOk (update_strategy_performance c (Address.strategyPda c)
        tr wr tt wt now s) = true
    ∧ ((step (.updatePerformance c (Address.strategyPda c) tr wr tt wt now)
          s).strategies.lookup c).map Strategy.win_rate = some wr := by
  constructor
  · simp [update_strategy_performance, exceptOk]
  · simp [step, applyExcept, update_strategy_performance, List.lookup]

/-- Claim C4: each computation-request handler echoes its (first) encrypted
blob back unchanged, and every other observable — success/failure, the
resulting chain state (which is exactly the pre-state: no mutation, no
event) — is identical for any two calls differing only in the blob bytes. -/
theorem request_handlers_blob_noninterference
    (c : Pubkey) (b b' b2 b2' : EncryptedData) (p o ob risk price : Nat)
    (s : ChainState) :
    (evaluate_rsi_strategy c b p o ob s
        = (evaluate_rsi_strategy c b' p o ob s).map (fun x => (b, x.2)))
    ∧ ((evaluate_rsi_strategy c b p o ob s).map Prod.snd
        = (evaluate_rsi_strategy c b p o ob s).map (fun _ => s))
    ∧ (calculate_position_size c b risk price s
        = (calculate_position_size c b' risk price s).map (fun x => (b, x.2)))
    ∧ ((calculate_position_size c b risk price s).map Prod.snd
        = (calculate_position_size c b risk price s).map (fun _ => s))
    ∧ (calculate_performance_metrics c b b2 s
        = (calculate_performance_metrics c b' b2' s).map (fun x => (b, x.2)))
    ∧ ((calculate_performance_metrics c b b2 s).map Prod.snd
        = (calculate_performance_metrics c b b2 s).map (fun _ => s)) := by
  cases h : s.mxe <;>
    simp [evaluate_rsi_strategy, calculate_position_size,
      calculate_performance_metrics, h, Except.map]

/-- Counterexample to claim C5 as stated: a successful settlement (and a
successful RSI request) appends zero audit events, not exactly one — the
event types are declared in the source but never emitted. -/
theorem successful_ops_emit_no_event :
    exceptOk (update_strategy_performance 7 (Address.strategyPda 7)
        250 6000 10 6 100 mxeReadyState) = true
    ∧ (step (.updatePerformance 7 (Address.strategyPda 7) 250 6000 10 6 100)
        mxeReadyState).events.length = 0
    ∧ exceptOk (evaluate_rsi_strategy 7 [1, 2, 3] 14 30 70 mxeReadyState) = true
    ∧ (step (.evaluateRsi 7 [1, 2, 3] 14 30 70) mxeReadyState).events.length
        = 0 := by
  decide

/-- Claim C5 as amended: no operation of the program ever appends an audit
event, on success or failure — the event log is left exactly as it was by
every request, settlement and registry creation. -/
theorem events_never_appended (op : Op) (s : ChainState) :
    (step op s).events = s.events := by
  cases op with
  | initializeMxe c b =>
      cases h : s.mxe <;> simp [step, applyExcept, initializeMxe, h]
  | evaluateRsi c e p o ob =>
      cases h : s.mxe <;>
        simp [step, applyExcept, evaluate_rsi_strategy, h, Except.map]
  | calculatePosition c e r pr =>
      cases h : s.mxe <;>
        simp [step, applyExcept, calculate_position_size, h, Except.map]
  | calculatePerformance c e1 e2 =>
      cases h : s.mxe <;>
        simp [step, applyExcept, calculate_performance_metrics, h, Except.map]
  | updatePerformance c a tr wr tt wt now =>
      by_cases h : a = Address.strategyPda c <;>
        simp [step, applyExcept, update_strategy_performance, h]

/-- Counterexample to claim C6 as stated: `calculate_position_size` with
`risk_percentage = 101` does not fail with `InvalidRiskPercentage`, and
with `current_price = 0` it does not fail either — both calls succeed. -/
theorem position_size_not_validated :
    exceptOk (calculate_position_size 7 [5] 101 0 mxeReadyState) = true
    ∧ exceptOk (calculate_position_size 7 [5] 0 0 mxeReadyState) = true := by
  decide

/-- Claim C6 as amended: `calculate_position_size` performs no validation
of `risk_percentage` or `current_price` whatsoever — whenever the MXE
registry account exists it succeeds for every parameter value (including
`risk_percentage = 101` and `current_price = 0`, as well as the in-range
`risk_percentage = 50`, `current_price = 100`), echoing the blob back. -/
theorem position_size_accepts_all_params
    (c : Pubkey) (blob : EncryptedData) (risk price : Nat) (s : ChainState)
    (m : MXE) (h : s.mxe = some m) :
    calculate_position_size c blob risk price s = .ok (blob, s) := by
  simp [calculate_position_size, h]

/-- Witness for the amended C6 at `risk_percentage = 101`,
`current_price = 0`. -/
theorem position_size_accepts_all_params_witness :
    mxeReadyState.mxe = some { MXE.zeroed with authority := 1, bump := 255 }
    ∧ calculate_position_size 7 [5] 101 0 mxeReadyState
        = .ok ([5], mxeReadyState) :=
  ⟨rfl, position_size_accepts_all_params 7 [5] 101 0 mxeReadyState _ rfl⟩

/-- Claim C7: settlement is idempotent under retry — applying the same
settlement twice (at times `t1` then `t2`) leaves the owner's Strategy
record equal to the record after a single application, up to the
`last_updated` timestamp. -/
theorem settle_idempotent
    (c : Pubkey) (tr : Int) (wr tt wt : Nat) (t1 t2 : Int) (s : ChainState) :
    ((step (.updatePerformance c (Address.strategyPda c) tr wr tt wt t2)
        (step (.updatePerformance c (Address.strategyPda c) tr wr tt wt t1)
          s)).strategies.lookup c).map Strategy.eraseTimestamp
    = ((step (.updatePerformance c (Address.strategyPda c) tr wr tt wt t1)
        s).strategies.lookup c).map Strategy.eraseTimestamp := by
  simp [step, applyExcept, update_strategy_performance, List.lookup,
    Strategy.eraseTimestamp]

/-- Claim C8: registry creation succeeds at most once — from a state with
no registry, `initialize` succeeds and stores the caller as authority; any
second creation attempt then fails with the already-initialized error and
leaves the registry record (authority included) untouched. -/
theorem registry_init_at_most_once
    (c c' : Pubkey) (b b' : Nat) (s : ChainState) (h : s.mxe = none) :
    initializeMxe c b s
        = .ok { s with mxe := some { MXE.zeroed with authority := c, bump := b } }
    ∧ initializeMxe c' b'
        { s with mxe := some { MXE.zeroed with authority := c, bump := b } }
        = .error .accountAlreadyInitialized
    ∧ (step (.initializeMxe c' b')
        { s with mxe := some { MXE.zeroed with authority := c, bump := b } }).mxe
        = some { MXE.zeroed with authority := c, bump := b } := by
  refine ⟨?_, ?_, ?_⟩ <;> simp [step, applyExcept, initializeMxe, h]

/-- Witness for C8 from the empty chain state. -/
theorem registry_init_at_most_once_witness :
    (⟨none, [], []⟩ : ChainState).mxe = none
    ∧ (initializeMxe 1 254 ⟨none, [], []⟩
          = .ok { (⟨none, [], []⟩ : ChainState) with
              mxe := some { MXE.zeroed with authority := 1, bump := 254 } }
       ∧ initializeMxe 2 254
            { (⟨none, [], []⟩ : ChainState) with
              mxe := some { MXE.zeroed with authority := 1, bump := 254 } }
            = .error .accountAlreadyInitialized
       ∧ (step (.initializeMxe 2 254)
            { (⟨none, [], []⟩ : ChainState) with
              mxe := some { MXE.zeroed with authority := 1, bump := 254 } }).mxe
            = some { MXE.zeroed with authority := 1, bump := 254 }) :=
  ⟨rfl, registry_init_at_most_once 1 2 254 254 ⟨none, [], []⟩ rfl⟩

/-- Once the registry exists, no operation modifies its record: requests
never write it and a repeated creation attempt aborts. -/
theorem step_preserves_mxe (op : Op) (s : ChainState) (m : MXE)
    (h : s.mxe = some m) : (step op s).mxe = some m := by
  cases op with
  | initializeMxe c b => simp [step, applyExcept, initializeMxe, h]
  | evaluateRsi c e p o ob =>
      simp [step, applyExcept, evaluate_rsi_strategy, h, Except.map]
  | calculatePosition c e r pr =>
      simp [step, applyExcept, calculate_position_size, h, Except.map]
  | calculatePerformance c e1 e2 =>
      simp [step, applyExcept, calculate_performance_metrics, h, Except.map]
  | updatePerformance c a tr wr tt wt now =>
      by_cases hc : a = Address.strategyPda c <;>
        simp [step, applyExcept, update_strategy_performance, hc, h]

/-- Claim C9: no handler touches the registry's computation counters —
after any sequence of operations (requests, settlements, repeated creation
attempts) the MXE record, in particular `total_computations` and
`successful_computations`, is exactly what it was at registry creation. -/
theorem registry_counters_never_incremented
    (ops : List Op) (s : ChainState) (m : MXE) (h : s.mxe = some m) :
    (run ops s).mxe.map MXE.total_computations = some m.total_computations
    ∧ (run ops s).mxe.map MXE.successful_computations
        = some m.successful_computations := by
  have key : (run ops s).mxe = some m := by
    induction ops generalizing s with
    | nil => simpa [run] using h
    | cons op rest ih =>
        have h1 : (step op s).mxe = some m := step_preserves_mxe op s m h
        simpa [run] using ih (step op s) h1
  simp [key]

/-- Witness for C9: a request, a settlement and a repeated creation
attempt leave the counters of a freshly created registry at zero. -/
theorem registry_counters_never_incremented_witness :
    mxeReadyState.mxe = some { MXE.zeroed with authority := 1, bump := 255 }
    ∧ ((run [.evaluateRsi 7 [1, 2] 14 30 70,
          .updatePerformance 7 (Address.strategyPda 7) 250 6000 10 6 100,
          .initializeMxe 9 3] mxeReadyState).mxe.map MXE.total_computations
          = some ({ MXE.zeroed with
              authority := 1, bump := 255 } : MXE).total_computations
       ∧ (run [.evaluateRsi 7 [1, 2] 14 30 70,
            .updatePerformance 7 (Address.strategyPda 7) 250 6000 10 6 100,
            .initializeMxe 9 3] mxeReadyState).mxe.map
              MXE.successful_computations
          = some ({ MXE.zeroed with
              authority := 1, bump := 255 } : MXE).successful_computations) :=
  ⟨rfl, registry_counters_never_incremented
    [.evaluateRsi 7 [1, 2] 14 30 70,
     .updatePerformance 7 (Address.strategyPda 7) 250 6000 10 6 100,
     .initializeMxe 9 3] mxeReadyState _ rfl⟩

/-- Predicate: every strategy record reachable by lookup has the all-zero
default `owner` and `bump` (the handler never assigns either field). -/
def ownersZeroed (s : ChainState) : Prop :=
  ∀ p : Pubkey, ∀ r : Strategy,
    s.strategies.lookup p = some r → r.owner = 0 ∧ r.bump = 0

/-- One step preserves the all-zero `owner`/`bump` invariant: the
settlement handler copies `owner` and `bump` from the previous record (or
the zero-initialized fresh record) and writes only the five performance
fields. -/
theorem ownersZeroed_step (op : Op) (s : ChainState) (h : ownersZeroed s) :
    ownersZeroed (step op s) := by
  cases op with
  | initializeMxe c b =>
      intro p r hr
      refine h p r ?_
      cases hm : s.mxe <;> simpa [step, applyExcept, initializeMxe, hm] using hr
  | evaluateRsi c e pd o ob =>
      intro p r hr
      refine h p r ?_
      cases hm : s.mxe <;>
        simpa [step, applyExcept, evaluate_rsi_strategy, hm, Except.map] using hr
  | calculatePosition c e ri pr =>
      intro p r hr
      refine h p r ?_
      cases hm : s.mxe <;>
        simpa [step, applyExcept, calculate_position_size, hm, Except.map]
          using hr
  | calculatePerformance c e1 e2 =>
      intro p r hr
      refine h p r ?_
      cases hm : s.mxe <;>
        simpa [step, applyExcept, calculate_performance_metrics, hm,
          Except.map] using hr
  | updatePerformance c a tr wr tt wt now =>
      by_cases hc : a = Address.strategyPda c
      · intro p r hr
        simp [step, applyExcept, update_strategy_performance, hc,
          List.lookup] at hr
        by_cases hpc : p = c
        · subst hpc
          simp [List.lookup] at hr
          cases hl : s.strategies.lookup p with
          | none =>
              simp [hl, Strategy.zeroed] at hr
              subst hr
              exact ⟨rfl, rfl⟩
          | some q =>
              have hq := h p q hl
              simp [hl] at hr
              subst hr
              exact ⟨hq.1, hq.2⟩
        · have hbeq : (p == c) = false := by simpa using hpc
          simp [List.lookup, hbeq] at hr
          exact h p r hr
      · intro p r hr
        refine h p r ?_
        simpa [step, applyExcept, update_strategy_performance, hc] using hr

/-- Claim C10: the settlement handler never assigns `owner` or `bump` — if
every strategy record starts with the all-zero default `owner` and `bump`
(vacuously true of a fresh deployment, where records are created
zero-initialized by `init_if_needed`), then after any sequence of
operations every strategy record still has `owner = 0` and `bump = 0`. -/
theorem strategy_owner_never_written
    (ops : List Op) (s : ChainState) (h : ownersZeroed s) :
    ownersZeroed (run ops s) := by
  induction ops generalizing s with
  | nil => simpa [run] using h
  | cons op rest ih =>
      have h1 := ownersZeroed_step op s h
      simpa [run] using ih (step op s) h1

/-- Witness for C10: from the empty chain state, a settlement lazily
creates the caller's record and its owner and bump stay zero. -/
theorem strategy_owner_never_written_witness :
    ownersZeroed ⟨none, [], []⟩
    ∧ ownersZeroed (run
        [.updatePerformance 7 (Address.strategyPda 7) 250 6000 10 6 100,
         .updatePerformance 7 (Address.strategyPda 7) 300 7500 12 9 200]
        ⟨none, [], []⟩) :=
  ⟨fun p r hr => by simp [List.lookup] at hr,
   strategy_owner_never_written
     [.updatePerformance 7 (Address.strategyPda 7) 250 6000 10 6 100,
      .updatePerformance 7 (Address.strategyPda 7) 300 7500 12 9 200]
     ⟨none, [], []⟩ (fun p r hr => by simp [List.lookup] at hr)⟩

end ShadowTrade
